import Mathlib

/-!
Shallow embedding of `volatility/framework/plugins/yarascan.py`.

The plugin has four parts: `YaraScan.process_yara_options` (rule-set
compilation from configuration), `YaraScanner.__call__` (the per-chunk
scanning callback), `YaraScan.scan` (orchestration over a layer) and
`YaraScan._generator` (row projection).  The external yara engine is
abstracted: a compiled rule set is represented by its match behaviour
(`Rules`), and `yara.compile` by the rule-source text it receives
(`RuleSource`), so that every claim about the produced rule text, the
offset arithmetic and the control flow is stated over the code as written.
-/

/-- Python values as they occur in the plugin's configuration dictionary
(`dict(self.config)`): `None`, booleans, strings and integers. -/
inductive PyVal where
  | none
  | bool (b : Bool)
  | str (s : String)
  | int (n : Int)
deriving DecidableEq, Repr

/-- Python exceptions that the embedded code can raise. -/
inductive PyError where
  | indexError
  | keyError
  | typeError
deriving DecidableEq, Repr

/-- A Python dict with string keys, as an association list (keys unique in
practice; lookup takes the first binding). -/
def PyDict : Type := List (String × PyVal)

/-- `d.get(k, dflt)`: the value bound to `k`, or the default when absent. -/
def PyDict.get (d : PyDict) (k : String) (dflt : PyVal) : PyVal :=
  match d with
  | [] => dflt
  | (k2, v) :: t => if k2 = k then v else PyDict.get t k dflt

/-- `d[k]`: the value bound to `k`, a `KeyError` when absent. -/
def PyDict.item (d : PyDict) (k : String) : Except PyError PyVal :=
  match d with
  | [] => Except.error PyError.keyError
  | (k2, v) :: t => if k2 = k then Except.ok v else PyDict.item t k

/-- Python truthiness of a value, as used by `if config.get(..., False):`. -/
def PyVal.truthy : PyVal → Bool
  | PyVal.none => false
  | PyVal.bool b => b
  | PyVal.str s => !(s == "")
  | PyVal.int n => !(n == 0)

/-- A byte sequence (Python `bytes`). -/
abbrev ByteSeq := List Nat

/-- One engine-reported string match: chunk-local offset, pattern name and
matched bytes, as in the triples of `match.strings`. -/
structure MatchString where
  offset : Nat
  name : String
  value : ByteSeq
deriving DecidableEq, Repr

/-- One engine-reported match (`yara.Match`), exposing its `strings`. -/
structure YaraMatch where
  strings : List MatchString
deriving DecidableEq, Repr

/-- A compiled rule set, abstracted by its deterministic match behaviour
`rules.match(data = data)`. -/
def Rules : Type := ByteSeq → List YaraMatch

/-- `YaraScanner.__call__(data, data_offset)`: for every match the engine
reports on `data` and every string of that match, yield
`(offset + data_offset, name, value)`. -/
def YaraScanner.call (rules : Rules) (data : ByteSeq) (data_offset : Nat) :
    List (Nat × String × ByteSeq) :=
  (rules data).flatMap
    (fun m => m.strings.map (fun s => (s.offset + data_offset, s.name, s.value)))

/-- The source text handed to the yara engine: either an inline rule source
string passed to `yara.compile(sources = ...)`, or the URI of a rule file
opened and passed to `yara.compile(file = ...)`. -/
inductive RuleSource where
  | inline (sourceText : String)
  | file (uri : String)
deriving DecidableEq, Repr

/-- The first-character test and quoting step:
`if rule[0] not in ["{", "/"]: rule = '"{}"'.format(rule)`.
On the empty string, `rule[0]` raises `IndexError`. -/
def quoteIfLiteral (rule : String) : Except PyError String :=
  match rule.data with
  | [] => Except.error PyError.indexError
  | c :: _ =>
    if c = '\x7b' ∨ c = '/' then Except.ok rule
    else Except.ok ("\"" ++ rule ++ "\"")

/-- The modifier suffixes:
`if config.get('case', False): rule += " nocase"` then
`if config.get('wide', False): rule += " wide ascii"`. -/
def applyModifiers (rule : String) (caseFlag wideFlag : Bool) : String :=
  let r1 := if caseFlag then rule ++ " nocase" else rule
  if wideFlag then r1 ++ " wide ascii" else r1

/-- The single-rule source template:
`'rule r1 {{strings: $a = {} condition: $a}}'.format(rule)`. -/
def yaraSourceTemplate (rule : String) : String :=
  "rule r1 \x7bstrings: $a = " ++ rule ++ " condition: $a\x7d"

/-- `YaraScan.process_yara_options(config)`: with `yara_rules` set, quote the
pattern unless it starts with a rule-syntax delimiter, append the modifiers
(the code consults the config keys `'case'` and `'wide'`), and compile the
templated inline source; else with `yara_file` set, open the file and compile
it; else log a diagnostic and return `None`. -/
def process_yara_options (config : PyDict) : Except PyError (Option RuleSource) :=
  if config.get "yara_rules" PyVal.none ≠ PyVal.none then
    match config.get "yara_rules" PyVal.none with
    | PyVal.str rule =>
      (quoteIfLiteral rule).map (fun q =>
        some (RuleSource.inline (yaraSourceTemplate
          (applyModifiers q
            (config.get "case" (PyVal.bool false)).truthy
            (config.get "wide" (PyVal.bool false)).truthy))))
    | _ => Except.error PyError.typeError
  else if config.get "yara_file" PyVal.none ≠ PyVal.none then
    match config.get "yara_file" PyVal.none with
    | PyVal.str uri => Except.ok (some (RuleSource.file uri))
    | _ => Except.error PyError.typeError
  else
    Except.ok none

/-- The resource URIs that `process_yara_options` opens: the single call to
`resources.ResourceAccessor().open(config['yara_file'], "rb")` sits on the
`elif` branch, so it is reached only when `yara_rules` is absent and
`yara_file` is present.  This mirrors the same branch structure as
`process_yara_options` and records the open-file effect of each branch. -/
def process_yara_options_opens (config : PyDict) : List String :=
  if config.get "yara_rules" PyVal.none ≠ PyVal.none then []
  else if config.get "yara_file" PyVal.none ≠ PyVal.none then
    match config.get "yara_file" PyVal.none with
    | PyVal.str uri => [uri]
    | _ => []
  else []

/-- A translation layer, abstracted by the chunk traversal its `scan` entry
point performs: an ordered list of `(base_offset, data)` chunks on which the
scanner callback is invoked. -/
structure Layer where
  chunks : List (Nat × ByteSeq)

/-- The context's layer collection, `context.layers`. -/
structure Context where
  layers : List (String × Layer)

/-- `context.layers[layer_name]`: a `KeyError` when the name is unknown. -/
def Context.lookupLayer (ctx : Context) (name : String) : Except PyError Layer :=
  match ctx.layers.find? (fun p => p.1 == name) with
  | some p => Except.ok p.2
  | none => Except.error PyError.keyError

/-- `YaraScan.scan(context, layer_name, rules)`: with `rules is None` it
returns before touching `context.layers`; otherwise it looks the layer up and
delegates to `layer.scan` with a `YaraScanner` callback, which runs the
callback on each traversal chunk in order. -/
def YaraScan.scan (ctx : Context) (layer_name : String) (rules : Option Rules) :
    Except PyError (List (Nat × String × ByteSeq)) :=
  match rules with
  | none => Except.ok []
  | some r =>
    match ctx.lookupLayer layer_name with
    | Except.error e => Except.error e
    | Except.ok layer =>
      Except.ok (layer.chunks.flatMap (fun c => YaraScanner.call r c.2 c.1))

/-- `YaraScan._generator`: compile the options, scan the `primary` layer, and
project each match `(offset, name, value)` to the row `(0, (offset, name,
value))` (the hex format hint leaves the integer unchanged).  The external
`yara.compile` step is abstracted by the parameter `compile` taking the rule
source to its match behaviour. -/
def YaraScan.generator (compile : RuleSource → Rules) (ctx : Context)
    (config : PyDict) : Except PyError (List (Nat × Nat × String × ByteSeq)) :=
  match process_yara_options config with
  | Except.error e => Except.error e
  | Except.ok rs =>
    match config.item "primary" with
    | Except.error e => Except.error e
    | Except.ok (PyVal.str primary) =>
      match YaraScan.scan ctx primary (rs.map compile) with
      | Except.error e => Except.error e
      | Except.ok results => Except.ok (results.map (fun t => (0, t)))
    | Except.ok _ => Except.error PyError.typeError

/-- Number of occurrences of `needle` as a contiguous run in `hay`. -/
def countOcc (needle : List Char) : List Char → Nat
  | [] => 0
  | c :: t => (if needle.isPrefixOf (c :: t) then 1 else 0) + countOcc needle t

/-- `needle` occurs as a contiguous run inside `hay`. -/
def hasSub (needle hay : List Char) : Prop := ∃ l r, hay = l ++ needle ++ r

/-- C1: the claim that setting the case-insensitive option (`insensitive`, as
declared by `get_requirements` and passed through `dict(self.config)`) to true
makes the compiled rule text contain `nocase` fails on the code: the
modifier branch consults the key `'case'`, which the requirements never
produce, so with `insensitive = True` the rule text contains no `nocase` at
all, while the undeclared key `'case'` does produce it. -/
theorem c1_insensitive_key_ignored :
    process_yara_options
        [("yara_rules", PyVal.str "abc"), ("insensitive", PyVal.bool true)] =
      Except.ok (some (RuleSource.inline
        "rule r1 \x7bstrings: $a = \"abc\" condition: $a\x7d")) ∧
    countOcc "nocase".data
        "rule r1 \x7bstrings: $a = \"abc\" condition: $a\x7d".data = 0 ∧
    process_yara_options
        [("yara_rules", PyVal.str "abc"), ("case", PyVal.bool true)] =
      Except.ok (some (RuleSource.inline
        "rule r1 \x7bstrings: $a = \"abc\" nocase condition: $a\x7d")) ∧
    countOcc "nocase".data
        "rule r1 \x7bstrings: $a = \"abc\" nocase condition: $a\x7d".data = 1 :=
  ⟨rfl, by decide, rfl, by decide⟩

/-- C2: `YaraScanner.__call__` on a chunk with base offset `B` emits exactly
the engine-reported strings, each with absolute offset `B + L` for the
engine's chunk-local offset `L`, with pattern name and matched bytes passed
through unchanged. -/
theorem c2_offset_translation (rules : Rules) (data : ByteSeq) (B : Nat)
    (t : Nat × String × ByteSeq) :
    t ∈ YaraScanner.call rules data B ↔
      ∃ m ∈ rules data, ∃ s ∈ m.strings, t = (B + s.offset, s.name, s.value) := by
  simp only [YaraScanner.call, List.mem_flatMap, List.mem_map]
  constructor
  · rintro ⟨m, hm, s, hs, ht⟩
    exact ⟨m, hm, s, hs, by rw [← ht, Nat.add_comm]⟩
  · rintro ⟨m, hm, s, hs, ht⟩
    exact ⟨m, hm, s, hs, by rw [ht, Nat.add_comm]⟩

/-- C3: with `yara_rules` and `yara_file` both `None`, `process_yara_options`
returns no rule set (it only logs a diagnostic), and `scan` with that absent
rule set yields the empty sequence without raising, for every context and
layer name. -/
theorem c3_no_rules_noop (config : PyDict)
    (h1 : config.get "yara_rules" PyVal.none = PyVal.none)
    (h2 : config.get "yara_file" PyVal.none = PyVal.none) :
    process_yara_options config = Except.ok none ∧
    ∀ (ctx : Context) (layer_name : String),
      YaraScan.scan ctx layer_name (none : Option Rules) = Except.ok [] := by
  refine ⟨?_, fun ctx layer_name => rfl⟩
  simp [process_yara_options, h1, h2]

theorem c3_no_rules_noop_witness :
    process_yara_options [("insensitive", PyVal.bool false)] = Except.ok none ∧
    YaraScan.scan ⟨[]⟩ "primary" (none : Option Rules) = Except.ok [] :=
  ⟨(c3_no_rules_noop [("insensitive", PyVal.bool false)] rfl rfl).1,
   (c3_no_rules_noop [("insensitive", PyVal.bool false)] rfl rfl).2 ⟨[]⟩ "primary"⟩

/-- C9: when `scan` is called with `rules = None` it returns the empty
sequence before `context.layers[layer_name]` is ever evaluated, so the result
is empty and exception-free even when the named layer does not exist in the
context. -/
theorem c9_none_rules_no_layer_lookup (ctx : Context) (name : String)
    (h : ctx.lookupLayer name = Except.error PyError.keyError) :
    YaraScan.scan ctx name none = Except.ok [] := rfl

theorem c9_none_rules_no_layer_lookup_witness :
    YaraScan.scan ⟨[]⟩ "missing" none = Except.ok [] :=
  c9_none_rules_no_layer_lookup ⟨[]⟩ "missing" rfl

/-- C10: on the empty inline pattern, the first-character test `rule[0]`
raises an `IndexError` before any compilation is attempted: no rule set and
no compile error is produced. -/
theorem c10_empty_pattern_index_error (config : PyDict)
    (h : config.get "yara_rules" PyVal.none = PyVal.str "") :
    process_yara_options config = Except.error PyError.indexError := by
  simp [process_yara_options, h, quoteIfLiteral, Except.map]

theorem c10_empty_pattern_index_error_witness :
    process_yara_options [("yara_rules", PyVal.str "")] =
      Except.error PyError.indexError :=
  c10_empty_pattern_index_error [("yara_rules", PyVal.str "")] rfl

theorem hasSub_append_left (n a b : List Char) (h : hasSub n b) :
    hasSub n (a ++ b) := by
  obtain ⟨l, r, hh⟩ := h
  exact ⟨a ++ l, r, by rw [hh]; simp [List.append_assoc]⟩

theorem hasSub_append_right (n a b : List Char) (h : hasSub n a) :
    hasSub n (a ++ b) := by
  obtain ⟨l, r, hh⟩ := h
  exact ⟨l, r ++ b, by rw [hh]; simp [List.append_assoc]⟩

theorem quoteIfLiteral_cons (p : String) (c : Char) (cs : List Char)
    (hd : p.data = c :: cs) :
    quoteIfLiteral p =
      if c = '\x7b' ∨ c = '/' then Except.ok p
      else Except.ok ("\"" ++ p ++ "\"") := by
  unfold quoteIfLiteral
  rw [hd]

/-- With `yara_rules` bound to a non-empty pattern, `process_yara_options`
reaches the inline branch and produces the templated rule source built from
the (possibly quoted) pattern and the modifier flags. -/
theorem process_yara_options_inline (config : PyDict) (p : String) (c : Char)
    (cs : List Char)
    (hp : config.get "yara_rules" PyVal.none = PyVal.str p)
    (hd : p.data = c :: cs) :
    process_yara_options config = Except.ok (some (RuleSource.inline
      (yaraSourceTemplate (applyModifiers
        (if c = '\x7b' ∨ c = '/' then p else "\"" ++ p ++ "\"")
        (config.get "case" (PyVal.bool false)).truthy
        (config.get "wide" (PyVal.bool false)).truthy)))) := by
  have h1 : config.get "yara_rules" PyVal.none ≠ PyVal.none := by
    rw [hp]; intro hcon; cases hcon
  unfold process_yara_options
  rw [if_pos h1, hp]
  show Except.map _ (quoteIfLiteral p) = _
  rw [quoteIfLiteral_cons p c cs hd]
  by_cases hc : c = '\x7b' ∨ c = '/' <;> simp [hc, Except.map]

/-- C4: when `yara_rules` is set (and a `yara_file` is also set), compilation
takes the inline branch: no resource URI is ever opened, the result never
comes from the file, and the outcome agrees with that of any configuration
with the same `yara_rules`, `case` and `wide` bindings regardless of its
`yara_file` binding. -/
theorem c4_inline_precedence (cfg1 cfg2 : PyDict)
    (hset : cfg1.get "yara_rules" PyVal.none ≠ PyVal.none)
    (hfile : cfg1.get "yara_file" PyVal.none ≠ PyVal.none)
    (hr : cfg1.get "yara_rules" PyVal.none = cfg2.get "yara_rules" PyVal.none)
    (hc : cfg1.get "case" (PyVal.bool false) = cfg2.get "case" (PyVal.bool false))
    (hw : cfg1.get "wide" (PyVal.bool false) = cfg2.get "wide" (PyVal.bool false)) :
    process_yara_options_opens cfg1 = [] ∧
    process_yara_options cfg1 = process_yara_options cfg2 ∧
    ∀ u, process_yara_options cfg1 ≠ Except.ok (some (RuleSource.file u)) := by
  have hset2 : cfg2.get "yara_rules" PyVal.none ≠ PyVal.none := by
    rw [← hr]; exact hset
  refine ⟨?_, ?_, ?_⟩
  · unfold process_yara_options_opens
    rw [if_pos hset]
  · unfold process_yara_options
    rw [if_pos hset, if_pos hset2, hr, hc, hw]
  · intro u
    unfold process_yara_options
    rw [if_pos hset]
    cases hv : cfg1.get "yara_rules" PyVal.none with
    | str s =>
      cases hq : quoteIfLiteral s <;> simp [Except.map, hq]
    | _ => simp

theorem c4_inline_precedence_witness :
    process_yara_options_opens
        [("yara_rules", PyVal.str "abc"), ("yara_file", PyVal.str "rules.yar")] = [] ∧
    process_yara_options
        [("yara_rules", PyVal.str "abc"), ("yara_file", PyVal.str "rules.yar")] =
      process_yara_options [("yara_rules", PyVal.str "abc")] ∧
    process_yara_options
        [("yara_rules", PyVal.str "abc"), ("yara_file", PyVal.str "rules.yar")] ≠
      Except.ok (some (RuleSource.file "rules.yar")) := by
  have h := c4_inline_precedence
    [("yara_rules", PyVal.str "abc"), ("yara_file", PyVal.str "rules.yar")]
    [("yara_rules", PyVal.str "abc")]
    (by decide) (by decide) rfl rfl rfl
  exact ⟨h.1, h.2.1, h.2.2 "rules.yar"⟩

/-- Both modifier directives sit inside the `" wide ascii"` suffix that the
wide branch appends, wherever the quoted pattern and the case flag land. -/
theorem template_wide_ascii (q : String) (cf : Bool) :
    hasSub "wide".data (yaraSourceTemplate (applyModifiers q cf true)).data ∧
    hasSub "ascii".data (yaraSourceTemplate (applyModifiers q cf true)).data := by
  have h : (yaraSourceTemplate (applyModifiers q cf true)).data =
      ("rule r1 \x7bstrings: $a = ".data ++ (if cf then q ++ " nocase" else q).data)
        ++ " wide ascii".data ++ " condition: $a\x7d".data := by
    simp [yaraSourceTemplate, applyModifiers, String.data_append, List.append_assoc]
  constructor
  · rw [h]
    exact hasSub_append_right _ _ _ (hasSub_append_left _ _ _
      ⟨[' '], " ascii".data, by decide⟩)
  · rw [h]
    exact hasSub_append_right _ _ _ (hasSub_append_left _ _ _
      ⟨" wide ".data, [], by decide⟩)

/-- C5: for every non-empty inline pattern, compiling with the wide option
set produces a rule text containing both the `wide` and the `ascii`
directives. -/
theorem c5_wide_directives (config : PyDict) (p : String) (c : Char)
    (cs : List Char)
    (hp : config.get "yara_rules" PyVal.none = PyVal.str p)
    (hd : p.data = c :: cs)
    (hw : (config.get "wide" (PyVal.bool false)).truthy = true) :
    ∃ t, process_yara_options config = Except.ok (some (RuleSource.inline t)) ∧
      hasSub "wide".data t.data ∧ hasSub "ascii".data t.data := by
  refine ⟨yaraSourceTemplate (applyModifiers
      (if c = '\x7b' ∨ c = '/' then p else "\"" ++ p ++ "\"")
      (config.get "case" (PyVal.bool false)).truthy true), ?_, ?_, ?_⟩
  · rw [process_yara_options_inline config p c cs hp hd, hw]
  · exact (template_wide_ascii _ _).1
  · exact (template_wide_ascii _ _).2

theorem c5_wide_directives_witness :
    ∃ t, process_yara_options
        [("yara_rules", PyVal.str "abc"), ("wide", PyVal.bool true)] =
      Except.ok (some (RuleSource.inline t)) ∧
      hasSub "wide".data t.data ∧ hasSub "ascii".data t.data :=
  c5_wide_directives [("yara_rules", PyVal.str "abc"), ("wide", PyVal.bool true)]
    "abc" 'a' ['b', 'c'] rfl rfl rfl

/-- C6: a non-empty inline pattern whose first character is neither `{` nor
`/` is wrapped in double quotes before the rule text is built; a pattern
starting with `{` or `/` enters the rule text unquoted. -/
theorem c6_literal_quoting (config : PyDict) (p : String) (c : Char)
    (cs : List Char)
    (hp : config.get "yara_rules" PyVal.none = PyVal.str p)
    (hd : p.data = c :: cs) :
    (¬(c = '\x7b' ∨ c = '/') →
      process_yara_options config = Except.ok (some (RuleSource.inline
        (yaraSourceTemplate (applyModifiers ("\"" ++ p ++ "\"")
          (config.get "case" (PyVal.bool false)).truthy
          (config.get "wide" (PyVal.bool false)).truthy))))) ∧
    ((c = '\x7b' ∨ c = '/') →
      process_yara_options config = Except.ok (some (RuleSource.inline
        (yaraSourceTemplate (applyModifiers p
          (config.get "case" (PyVal.bool false)).truthy
          (config.get "wide" (PyVal.bool false)).truthy))))) := by
  constructor <;> intro hc <;>
    rw [process_yara_options_inline config p c cs hp hd] <;> simp [hc]

theorem c6_literal_quoting_witness :
    process_yara_options [("yara_rules", PyVal.str "abc")] =
      Except.ok (some (RuleSource.inline
        (yaraSourceTemplate (applyModifiers "\"abc\"" false false)))) ∧
    process_yara_options [("yara_rules", PyVal.str "/a/")] =
      Except.ok (some (RuleSource.inline
        (yaraSourceTemplate (applyModifiers "/a/" false false)))) :=
  ⟨(c6_literal_quoting [("yara_rules", PyVal.str "abc")] "abc" 'a' ['b', 'c']
      rfl rfl).1 (by decide),
   (c6_literal_quoting [("yara_rules", PyVal.str "/a/")] "/a/" '/' ['a', '/']
      rfl rfl).2 (by decide)⟩

/-- C7: `scan` is deterministic: two calls with the same rule set and the
same layer state (the same lookup outcome and hence the same chunk
traversal) yield the identical ordered sequence of matches. -/
theorem c7_scan_deterministic (ctx1 ctx2 : Context) (name : String)
    (rules : Option Rules)
    (h : ctx1.lookupLayer name = ctx2.lookupLayer name) :
    YaraScan.scan ctx1 name rules = YaraScan.scan ctx2 name rules := by
  cases rules with
  | none => rfl
  | some r => unfold YaraScan.scan; rw [h]

theorem c7_scan_deterministic_witness :
    YaraScan.scan ⟨[("l", ⟨[(0, [1, 2])]⟩)]⟩ "l" (some (fun _ => [])) =
      YaraScan.scan ⟨[("l", ⟨[(0, [1, 2])]⟩)]⟩ "l" (some (fun _ => [])) :=
  c7_scan_deterministic ⟨[("l", ⟨[(0, [1, 2])]⟩)]⟩ ⟨[("l", ⟨[(0, [1, 2])]⟩)]⟩
    "l" (some (fun _ => [])) rfl

/-- C8: neither rule compilation nor the scan/row pipeline consults
`max_size`: two configurations agreeing everywhere except possibly on
`max_size` produce the same compiled rule source and the same rows. -/
theorem c8_max_size_irrelevant (compile : RuleSource → Rules) (ctx : Context)
    (cfg1 cfg2 : PyDict)
    (hg : ∀ k d, k ≠ "max_size" → cfg1.get k d = cfg2.get k d)
    (hi : cfg1.item "primary" = cfg2.item "primary") :
    process_yara_options cfg1 = process_yara_options cfg2 ∧
    YaraScan.generator compile ctx cfg1 = YaraScan.generator compile ctx cfg2 := by
  have hproc : process_yara_options cfg1 = process_yara_options cfg2 := by
    unfold process_yara_options
    rw [hg "yara_rules" PyVal.none (by decide),
      hg "yara_file" PyVal.none (by decide),
      hg "case" (PyVal.bool false) (by decide),
      hg "wide" (PyVal.bool false) (by decide)]
  refine ⟨hproc, ?_⟩
  unfold YaraScan.generator
  rw [hproc, hi]

theorem c8_max_size_irrelevant_witness :
    process_yara_options [("max_size", PyVal.int 1)] =
      process_yara_options [("max_size", PyVal.int 2)] ∧
    YaraScan.generator (fun _ => fun _ => []) ⟨[]⟩ [("max_size", PyVal.int 1)] =
      YaraScan.generator (fun _ => fun _ => []) ⟨[]⟩ [("max_size", PyVal.int 2)] :=
  c8_max_size_irrelevant (fun _ => fun _ => []) ⟨[]⟩
    [("max_size", PyVal.int 1)] [("max_size", PyVal.int 2)]
    (fun k d hk => by simp [PyDict.get, Ne.symm hk]) rfl

